import Mathlib

/-!
Shallow embedding of the hyperliquidwallettracker event pipeline.

The Python source stores events as loosely-typed dictionaries.  We model the
payload values by an inductive type `PyVal` covering the shapes the pipeline
manipulates: `None`, numbers (floats and ints, modelled as rationals), strings,
lists and dictionaries.  Numeric-content strings (which Python's `float()`
would parse) are outside the modelled universe: a `str` value never converts
to a number, matching the pipeline's actual payloads where numerics arrive as
JSON numbers.
-/

inductive PyVal where
  | pynull
  | num (q : ℚ)
  | str (s : String)
  | list (xs : List PyVal)
  | dict (kvs : List (String × PyVal))
  deriving Repr

/-- A Python dictionary with string keys, as produced by JSON decoding.
Keys are unique and in insertion order. -/
abbrev Dict := List (String × PyVal)

/-- Python truthiness: `None`, `0`, `""`, `[]` and `\x7b\x7d` are falsy. -/
def pyTruthy : PyVal → Bool
  | .pynull => false
  | .num q => q != 0
  | .str s => s != ""
  | .list xs => !xs.isEmpty
  | .dict kvs => !kvs.isEmpty

/-- Python `str()`.  `str(None) = "None"`; numbers render to their decimal
form (we use the rational's `toString`, which agrees on integers — no claim
depends on the exact rendering of a number); containers render to their reprs,
abstracted here as non-empty placeholder strings. -/
def pyStr : PyVal → String
  | .pynull => "None"
  | .num q => toString q
  | .str s => s
  | .list _ => "<list>"
  | .dict _ => "<dict>"

/-- Python `float(v)`: succeeds on numbers, raises (`none`) otherwise
(see the universe note above for strings). -/
def pyFloat : PyVal → Option ℚ
  | .num q => some q
  | _ => none

/-- Whether a value is Python `None` (`v is None`). -/
def isNull : PyVal → Bool
  | .pynull => true
  | _ => false

/-- Dictionary lookup (first matching key): `none` when the key is absent. -/
def dictGet : Dict → String → Option PyVal
  | [], _ => none
  | kv :: rest, k => if kv.1 = k then some kv.2 else dictGet rest k

/-- Python `d.get(k)`: `None` when the key is absent. -/
def pyGet (kvs : Dict) (k : String) : PyVal :=
  (dictGet kvs k).getD .pynull

/-- Python `d.get(k, default)`. -/
def pyGetD (kvs : Dict) (k : String) (d : PyVal) : PyVal :=
  (dictGet kvs k).getD d

/-- Python `a or b`: the first operand if truthy, else the second. -/
def pyOr (a b : PyVal) : PyVal :=
  if pyTruthy a then a else b

/-- Python `"|".join` on a list of strings
(`alerts/engine.py`, `_create_event_fingerprint`). -/
def joinPipe : List String → String
  | [] => ""
  | [x] => x
  | x :: y :: xs => x ++ "|" ++ joinPipe (y :: xs)

/-- The rendered fingerprint components of an event: the four identity fields
(`type`, `wallet`, `coin`, `side`) are kept as produced by `.get` — `none`
when the key is absent or the stored value is Python `None` (such fields are
filtered out of the join, not rendered) — and the three numeric fields are
always rendered, with `""` as the default for an absent key. -/
structure FingerprintFields where
  ftype : Option String
  fwallet : Option String
  fcoin : Option String
  fside : Option String
  fusd : String
  fsize : String
  fprice : String
  deriving Repr, DecidableEq

/-- `str(field)` for the first four key fields, after the
`if field is not None` filter of the join comprehension. -/
def renderKeyField : Option PyVal → Option String
  | none => none
  | some v => if isNull v then none else some (pyStr v)

/-- The seven fingerprint fields of an event
(`alerts/engine.py`, `_create_event_fingerprint`, lines 180-188). -/
def fingerprint_fields (e : Dict) : FingerprintFields where
  ftype := renderKeyField (dictGet e "type")
  fwallet := renderKeyField (dictGet e "wallet")
  fcoin := renderKeyField (dictGet e "coin")
  fside := renderKeyField (dictGet e "side")
  fusd := pyStr (pyGetD e "usd_value" (.str ""))
  fsize := pyStr (pyGetD e "size" (.str ""))
  fprice := pyStr (pyGetD e "price" (.str ""))

/-- `"|".join(str(field) for field in key_fields if field is not None)`. -/
def fingerprint_of_fields (f : FingerprintFields) : String :=
  joinPipe (([f.ftype, f.fwallet, f.fcoin, f.fside].filterMap id)
    ++ [f.fusd, f.fsize, f.fprice])

/-- `AlertEngine._create_event_fingerprint` (`alerts/engine.py`). -/
def create_event_fingerprint (e : Dict) : String :=
  fingerprint_of_fields (fingerprint_fields e)

/-! ### Rules engine (`alerts/rules.py`) -/

inductive AlertCondition where
  | position_size
  | volume_threshold
  | price_change
  | frequency
  | custom
  deriving Repr, DecidableEq

/-- `AlertRule` (`alerts/rules.py`).  `custom_condition` is the optional
user-supplied predicate; exceptions inside it are caught by the source, so it
is modelled as a total boolean predicate. -/
structure AlertRule where
  name : String
  condition : AlertCondition
  severity : String
  enabled : Bool := true
  threshold : Option ℚ := none
  time_window : Option ℚ := none
  custom_condition : Option (Dict → Bool) := none

/-- The USD aliases tried, in order, by both `_extract_usd_value` variants. -/
def usd_fields : List String :=
  ["usd_value", "usdValue", "value_usd", "valueUSD",
   "total_value", "totalValue", "amount_usd", "amountUSD"]

/-- The shared loop shape `for field in fields: if field in event and
event[field] is not None: try: return float(event[field]) except: continue`:
absent and `None` values are skipped, unconvertible values continue to the
next alias. -/
def extractFromFields (event : Dict) : List String → Option ℚ
  | [] => none
  | f :: rest =>
    match dictGet event f with
    | some v =>
      if isNull v then extractFromFields event rest
      else
        match pyFloat v with
        | some q => some q
        | none => extractFromFields event rest
    | none => extractFromFields event rest

/-- `RulesEngine._extract_usd_value` (`alerts/rules.py` lines 261-286).  The
price/size fallback uses Python `or`-chains, so a falsy value (0, `""`) falls
through to the next alias; a `float()` failure in the product is swallowed
(`except: pass`) and yields no value. -/
def rules_extract_usd_value (event : Dict) : Option ℚ :=
  match extractFromFields event usd_fields with
  | some q => some q
  | none =>
    let price := pyOr (pyGet event "price")
      (pyOr (pyGet event "limitPx") (pyGet event "limit_px"))
    let size := pyOr (pyGet event "size")
      (pyOr (pyGet event "sz") (pyGet event "quantity"))
    if isNull price || isNull size then none
    else
      match pyFloat price, pyFloat size with
      | some p, some s => some (p * s)
      | _, _ => none

/-- `RulesEngine._evaluate_position_size`: fires iff the extracted USD value
is at least the rule threshold; a missing threshold or value never fires. -/
def evaluate_position_size (rule : AlertRule) (event : Dict) : Bool :=
  match rule.threshold with
  | none => false
  | some θ =>
    match rules_extract_usd_value event with
    | none => false
    | some v => decide (θ ≤ v)

/-- Python `v >= q` for a payload value against a number: comparing a
non-number (including `None` or a string) raises `TypeError`, modelled as
`none`. -/
def pyGEq (v : PyVal) (q : ℚ) : Option Bool :=
  match v with
  | .num x => some (decide (q ≤ x))
  | _ => none

/-- The comprehension `[e for e in history if e.get("timestamp", 0) >=
cutoff]`; a `TypeError` anywhere aborts the enclosing rule evaluation
(`none`). -/
def filterRecent (history : List Dict) (cutoff : ℚ) : Option (List Dict) :=
  history.foldr
    (fun e acc =>
      match acc, pyGEq (pyGetD e "timestamp" (.num 0)) cutoff with
      | some l, some true => some (e :: l)
      | some l, some false => some l
      | _, _ => none)
    (some [])

mutual

/-- Structural equality of payload values (Python `==`).  Scalars compare by
value; containers compare elementwise (dictionaries are produced by JSON
decoding with a fixed key order, which this embedding treats as canonical). -/
def pyValEq : PyVal → PyVal → Bool
  | .pynull, .pynull => true
  | .num a, .num b => a == b
  | .str a, .str b => a == b
  | .list a, .list b => pyValEqList a b
  | .dict a, .dict b => pyValEqDict a b
  | _, _ => false

def pyValEqList : List PyVal → List PyVal → Bool
  | [], [] => true
  | x :: xs, y :: ys => pyValEq x y && pyValEqList xs ys
  | _, _ => false

def pyValEqDict : List (String × PyVal) → List (String × PyVal) → Bool
  | [], [] => true
  | (k, v) :: xs, (k', v') :: ys => k == k' && pyValEq v v' && pyValEqDict xs ys
  | _, _ => false

end

/-- The comprehension of `_evaluate_frequency`: same-wallet events within the
window; the wallet test short-circuits before the (possibly raising)
timestamp comparison. -/
def filterRecentWallet (history : List Dict) (wallet : PyVal) (cutoff : ℚ) :
    Option (List Dict) :=
  history.foldr
    (fun e acc =>
      match acc with
      | none => none
      | some l =>
        if pyValEq (pyGet e "wallet") wallet then
          match pyGEq (pyGetD e "timestamp" (.num 0)) cutoff with
          | some true => some (e :: l)
          | some false => some l
          | none => none
        else some l)
    (some [])

/-- `RulesEngine._evaluate_volume_threshold`: total extracted USD value of
window events (`or 0` maps missing values to 0) at least the threshold. -/
def evaluate_volume_threshold (rule : AlertRule) (history : List Dict) (now : ℚ) :
    Option Bool :=
  match rule.threshold, rule.time_window with
  | some θ, some w =>
    match filterRecent history (now - w) with
    | none => none
    | some recent =>
      some (decide (θ ≤ (recent.map (fun e => (rules_extract_usd_value e).getD 0)).sum))
  | _, _ => some false

/-- `RulesEngine._evaluate_frequency`: count of same-wallet window events at
least the threshold; a falsy wallet never fires. -/
def evaluate_frequency (rule : AlertRule) (event : Dict) (history : List Dict)
    (now : ℚ) : Option Bool :=
  match rule.threshold, rule.time_window with
  | some θ, some w =>
    let wallet := pyGet event "wallet"
    if !pyTruthy wallet then some false
    else
      match filterRecentWallet history wallet (now - w) with
      | none => none
      | some recent => some (decide (θ ≤ (recent.length : ℚ)))
  | _, _ => some false

/-- `RulesEngine._evaluate_rule`, under the per-rule try/except of
`evaluate_event`: `none` models a raised exception (logged, non-fire). -/
def evaluate_rule (rule : AlertRule) (event : Dict) (history : List Dict)
    (now : ℚ) : Option Bool :=
  match rule.condition with
  | .position_size => some (evaluate_position_size rule event)
  | .volume_threshold => evaluate_volume_threshold rule history now
  | .price_change => some false
  | .frequency => evaluate_frequency rule event history now
  | .custom =>
    match rule.custom_condition with
    | none => some false
    | some f => some (f event)

/-- `_add_to_history`: stamp a missing ingestion timestamp onto the event
(the source mutates the dict, appending the key). -/
def stampTimestamp (event : Dict) (now : ℚ) : Dict :=
  if (dictGet event "timestamp").isSome then event
  else event ++ [("timestamp", .num now)]

def max_history_size : Nat := 1000

/-- `RulesEngine._add_to_history`: append the stamped event and keep the last
1000 entries.  Returns the new history and the stamped event (the same
object the rules then evaluate). -/
def add_to_history (history : List Dict) (event : Dict) (now : ℚ) :
    List Dict × Dict :=
  let e := stampTimestamp event now
  let h := history ++ [e]
  (if h.length > max_history_size then h.drop (h.length - max_history_size) else h, e)

/-- `RulesEngine.evaluate_event`: add to history, then collect the enabled
rules whose evaluation returns true (an exception counts as non-fire).
Returns the triggered rules in declaration order and the new history. -/
def evaluate_event (rules : List AlertRule) (event : Dict) (history : List Dict)
    (now : ℚ) : List AlertRule × List Dict :=
  let he := add_to_history history event now
  (rules.filter (fun r => r.enabled && ((evaluate_rule r he.2 he.1 now).getD false)),
   he.1)

/-- `DEFAULT_RULES` (`alerts/rules.py` lines 51-102). -/
def DEFAULT_RULES : List AlertRule :=
  [{ name := "whale_position", condition := .position_size, severity := "critical",
     threshold := some 1000000 },
   { name := "large_position", condition := .position_size, severity := "high",
     threshold := some 100000 },
   { name := "medium_position", condition := .position_size, severity := "medium",
     threshold := some 10000 },
   { name := "notable_position", condition := .position_size, severity := "low",
     threshold := some 1000 },
   { name := "high_frequency_trading", condition := .frequency, severity := "medium",
     threshold := some 10, time_window := some 60 },
   { name := "unusual_volume", condition := .volume_threshold, severity := "high",
     threshold := some 50000, time_window := some 300 }]

/-! ### Position classifier (`alerts/classifier.py`) -/

def price_fields : List String := ["price", "limitPx", "limit_px", "execution_price"]

def size_fields : List String := ["size", "sz", "quantity", "amount", "volume"]

/-- `PositionClassifier._extract_price`. -/
def classifier_extract_price (event : Dict) : Option ℚ :=
  extractFromFields event price_fields

/-- `PositionClassifier._extract_size`. -/
def classifier_extract_size (event : Dict) : Option ℚ :=
  extractFromFields event size_fields

/-- `PositionClassifier._extract_usd_value`: the USD aliases, else
price × size from the field-by-field extractors (which, unlike the rules
variant, accept falsy numerics such as 0). -/
def classifier_extract_usd_value (event : Dict) : Option ℚ :=
  match extractFromFields event usd_fields with
  | some q => some q
  | none =>
    match classifier_extract_price event, classifier_extract_size event with
    | some p, some s => some (p * s)
    | _, _ => none

/-- `PositionThresholds` (`core/config.py`) with its defaults. -/
structure PositionThresholds where
  notable_threshold : ℚ := 1000
  medium_threshold : ℚ := 10000
  large_threshold : ℚ := 100000
  whale_threshold : ℚ := 1000000
  deriving Repr, DecidableEq

inductive PositionSize where
  | WHALE
  | LARGE
  | MEDIUM
  | NOTABLE
  | SMALL
  deriving Repr, DecidableEq

/-- `PositionClassifier.classify_position` (`alerts/classifier.py` lines
59-89): `None` for a missing or non-positive USD value, else the first
matching threshold in the order whale, large, medium, notable. -/
def classify_position (th : PositionThresholds) (event : Dict) :
    Option PositionSize :=
  match classifier_extract_usd_value event with
  | none => none
  | some v =>
    if v ≤ 0 then none
    else if th.whale_threshold ≤ v then some .WHALE
    else if th.large_threshold ≤ v then some .LARGE
    else if th.medium_threshold ≤ v then some .MEDIUM
    else if th.notable_threshold ≤ v then some .NOTABLE
    else some .SMALL

/-! ### Configuration (`core/config.py`) -/

/-- Truthiness of an `Optional[str]` field (`None` and `""` are falsy). -/
def optStrTruthy : Option String → Bool
  | some s => s != ""
  | none => false

/-- The configuration fields read by `get_enabled_channels` and
`validate_configuration`. -/
structure HLConfig where
  watched_wallets : List String
  thresholds : PositionThresholds
  discord_enabled : Bool
  discord_webhook_url : Option String
  telegram_enabled : Bool
  telegram_bot_token : Option String
  telegram_chat_id : Option String
  email_enabled : Bool
  email_username : Option String
  email_to_addrs : List String
  webhook_enabled : Bool
  webhook_url : Option String

/-- `HyperLiquidConfig.get_enabled_channels`. -/
def get_enabled_channels (c : HLConfig) : List String :=
  (if c.discord_enabled && optStrTruthy c.discord_webhook_url
    then ["discord"] else [])
  ++ (if c.telegram_enabled && optStrTruthy c.telegram_bot_token
        && optStrTruthy c.telegram_chat_id then ["telegram"] else [])
  ++ (if c.email_enabled && optStrTruthy c.email_username
        && !c.email_to_addrs.isEmpty then ["email"] else [])
  ++ (if c.webhook_enabled && optStrTruthy c.webhook_url then ["webhook"] else [])

/-- `HyperLiquidConfig.validate_configuration` (`core/config.py` lines
135-146): the only checks are a non-empty watched set and at least one
configured channel. -/
def validate_configuration (c : HLConfig) : List String :=
  (if c.watched_wallets.isEmpty then ["No wallets configured for monitoring"] else [])
  ++ (if (get_enabled_channels c).isEmpty
      then ["No notification channels configured"] else [])

/-! ### Event deduplication (`alerts/engine.py`) -/

/-- Lookup in the fingerprint-to-last-seen mapping. -/
def assocFind : List (String × ℚ) → String → Option ℚ
  | [], _ => none
  | kv :: rest, k => if kv.1 = k then some kv.2 else assocFind rest k

/-- `recent_events[fp] = now`: replace the entry for the key, or append. -/
def assocSet : List (String × ℚ) → String → ℚ → List (String × ℚ)
  | [], k, v => [(k, v)]
  | kv :: rest, k, v => if kv.1 = k then (k, v) :: rest else kv :: assocSet rest k v

def dedup_window_seconds : ℚ := 30

/-- The duplicate test of `_is_duplicate_event`: the fingerprint was seen,
and strictly less than `dedup_window_seconds` ago. -/
def dedupHit (recent : List (String × ℚ)) (fp : String) (now : ℚ) : Bool :=
  match assocFind recent fp with
  | some last => decide (now - last < dedup_window_seconds)
  | none => false

/-- `AlertEngine._is_duplicate_event` (`alerts/engine.py` lines 152-175):
a fingerprint seen strictly less than 30s ago is a duplicate (state
unchanged); otherwise the fingerprint is recorded at `now` and entries older
than 60s are swept. -/
def is_duplicate_event (recent : List (String × ℚ)) (event : Dict) (now : ℚ) :
    Bool × List (String × ℚ) :=
  let fp := create_event_fingerprint event
  if dedupHit recent fp now then (true, recent)
  else
    (false, (assocSet recent fp now).filter
      (fun kv => decide (now - 2 * dedup_window_seconds < kv.2)))

/-- `AlertEngine.process_event` (`alerts/engine.py` lines 75-150), reduced to
its dedup / rule-evaluation control flow.  Returns the triggered rules (one
notification is generated per triggered rule by `_create_notification`), the
new rule history, the new dedup state, and whether `evaluate_event` was
invoked at all.  A detected duplicate short-circuits to an empty result with
no rule evaluation. -/
def process_event (rules : List AlertRule) (event : Dict) (history : List Dict)
    (recent : List (String × ℚ)) (now : ℚ) :
    List AlertRule × List Dict × List (String × ℚ) × Bool :=
  let d := is_duplicate_event recent event now
  if d.1 then ([], history, d.2, false)
  else
    let te := evaluate_event rules event history now
    (te.1, te.2, d.2, true)

/-- Thresholds violating the ordering whale > large > medium > notable:
the whale cutoff sits below all the others. -/
def c10_bad_thresholds : PositionThresholds :=
  { notable_threshold := 1000, medium_threshold := 10000,
    large_threshold := 100000, whale_threshold := 500 }

/-- A configuration carrying the mis-ordered thresholds, with a watched
wallet and one configured channel so that the other validation checks pass. -/
def c10_config : HLConfig :=
  { watched_wallets := ["0xabc"], thresholds := c10_bad_thresholds,
    discord_enabled := true, discord_webhook_url := some "https://example.invalid/hook",
    telegram_enabled := false, telegram_bot_token := none, telegram_chat_id := none,
    email_enabled := false, email_username := none, email_to_addrs := [],
    webhook_enabled := false, webhook_url := none }

/-! ### Rate limiter (`utils/rate_limiter.py`) -/

inductive RateLimitStrategy where
  | fixed_window
  | sliding_window
  | token_bucket
  | leaky_bucket
  deriving Repr, DecidableEq

/-- `RateLimitConfig` with its defaults. -/
structure RateLimitConfig where
  strategy : RateLimitStrategy := .sliding_window
  max_requests : Nat := 10
  window_seconds : ℚ := 60
  burst_capacity : ℚ := 5
  refill_rate : ℚ := 1
  cooldown_seconds : ℚ := 30
  deriving Repr, DecidableEq

/-- The per-key entry of `channel_stats`. -/
structure ChannelStats where
  requests : List ℚ
  tokens : ℚ
  last_refill : ℚ
  deriving Repr, DecidableEq

/-- The stats entry created on first use of a key
(`can_send_request`, lines 111-116). -/
def initChannelStats (cfg : RateLimitConfig) (now : ℚ) : ChannelStats :=
  { requests := [], tokens := cfg.burst_capacity, last_refill := now }

/-- Python `min` over a list (the source only calls it on a non-empty list;
the empty case is unreachable for positive `max_requests`). -/
def listMin : List ℚ → ℚ
  | [] => 0
  | x :: xs => xs.foldl min x

/-- `RateLimiter.can_send_request` (`utils/rate_limiter.py` lines 96-161) for
one `(channel, wallet-prefix)` key with stats `st`.  Returns
`(can_send, wait_time, updated stats)`.  Faithful to the source: the
window-based branches prune old requests and test the count, but NO branch
ever appends the current request to `st.requests`. -/
def can_send_request (cfg : RateLimitConfig) (st : ChannelStats) (now : ℚ) :
    Bool × ℚ × ChannelStats :=
  match cfg.strategy with
  | .fixed_window =>
    let reqs := st.requests.filter (fun t => decide (now - cfg.window_seconds < t))
    if cfg.max_requests ≤ reqs.length then
      (false, max 0 (cfg.window_seconds - (now - reqs.headD 0)),
       { st with requests := reqs })
    else (true, 0, { st with requests := reqs })
  | .sliding_window =>
    let reqs := st.requests.filter (fun t => decide (now - cfg.window_seconds < t))
    if cfg.max_requests ≤ reqs.length then
      (false, max 0 (listMin reqs + cfg.window_seconds - now),
       { st with requests := reqs })
    else (true, 0, { st with requests := reqs })
  | .token_bucket =>
    let tokens := min cfg.burst_capacity
      (st.tokens + (now - st.last_refill) * cfg.refill_rate)
    if 1 ≤ tokens then
      (true, 0, { st with tokens := tokens - 1, last_refill := now })
    else
      (false, 1 / cfg.refill_rate, { st with tokens := tokens, last_refill := now })
  | .leaky_bucket => (true, 0, st)

/-- `DEFAULT_RATE_LIMITS["discord"]`: sliding window, 10 requests / 60 s. -/
def discord_rate_limit_config : RateLimitConfig :=
  { strategy := .sliding_window, max_requests := 10, window_seconds := 60,
    cooldown_seconds := 45 }

/-- The dispatcher submitting a sequence of sends through the limiter
(`_send_to_channel` admission check, dispatcher lines 170-182): each send is
admitted or deferred; state threads through.  Returns
`(sent, deferred, final stats)`. -/
def dispatch_send_seq (cfg : RateLimitConfig) (st : ChannelStats) :
    List ℚ → Nat × Nat × ChannelStats
  | [] => (0, 0, st)
  | t :: ts =>
    let r := can_send_request cfg st t
    let rest := dispatch_send_seq cfg r.2.2 ts
    if r.1 then (rest.1 + 1, rest.2.1, rest.2.2)
    else (rest.1, rest.2.1 + 1, rest.2.2)

/-- Eleven submission times, all inside one 60-second window. -/
def c1_times : List ℚ := [0, 1, 2, 3, 4, 5, 6, 7, 8, 9, 10]

/-! ### Dispatcher effects (`notifications/dispatcher.py`) -/

inductive DispatchEffect where
  | send (channel : String) (content : PyVal)
  | addPending (channel : String) (wallet : String) (notification : PyVal)
  | recordRateLimited
  | recordSent
  | recordFailed
  | addRetry (channel : String) (wallet : String)
  | clearPending (key : String)
  deriving Repr

def isSendEffect : DispatchEffect → Bool
  | .send _ _ => true
  | _ => false

/-- `NotificationDispatcher._send_to_channel` (lines 158-226) as the sequence
of effects it performs: when the limiter denies, the notification is queued
as pending and counted rate-limited — the channel send primitive is not
invoked; when admitted, the send primitive runs and success/failure is
recorded (failure also enqueues a retry). -/
def send_to_channel_effects (channel wallet : String) (content notification : PyVal)
    (canSend : Bool) (sendOk : Bool) : List DispatchEffect :=
  if !canSend then
    [.addPending channel wallet notification, .recordRateLimited]
  else if sendOk then
    [.send channel content, .recordSent]
  else
    [.send channel content, .recordFailed, .addRetry channel wallet]

/-- `PendingEvent` (`utils/rate_limiter.py` lines 39-46), event payload and
priority. -/
structure PendingEvent where
  event : PyVal
  priority : Int := 0
  deriving Repr

/-- One iteration of `RateLimiter._flush_loop` (`utils/rate_limiter.py` lines
290-322): keys with a non-empty pending list whose rate limit admits are
cleared from the pending map (`clear_pending_events`); the loop performs no
channel send — the source only notes that sending "would be handled by the
caller", and no caller retrieves the cleared events.  Returns the new pending
map and the effects performed. -/
def flush_loop_iter (pending : List (String × List PendingEvent))
    (canSend : String → Bool) :
    (List (String × List PendingEvent)) × List DispatchEffect :=
  let flushable : String × List PendingEvent → Bool :=
    fun kv => !kv.2.isEmpty && canSend kv.1
  (pending.filter (fun kv => !(flushable kv)),
   (pending.filter flushable).map (fun kv => .clearPending kv.1))

/-! ### Retry queue (`notifications/dispatcher.py`) -/

/-- The retry-relevant fields of a retry-queue item. -/
structure RetryItem where
  retry_count : Nat
  next_retry : ℚ
  deriving Repr, DecidableEq

def max_retries : Nat := 3

def retry_delay_base : ℚ := 5

/-- `_add_to_retry_queue` (lines 261-280): a fresh item with `retry_count`
0, first attempt after the base delay. -/
def add_to_retry_queue (now : ℚ) : RetryItem :=
  { retry_count := 0, next_retry := now + retry_delay_base }

/-- The selection test of `_process_retries` (lines 308-311). -/
def retry_ready (item : RetryItem) (now : ℚ) : Bool :=
  decide (item.retry_count < max_retries) && decide (item.next_retry ≤ now)

structure RetryStepResult where
  item : RetryItem
  requeued : Bool
  success_recorded : Bool
  terminal_failed : Bool
  deriving Repr, DecidableEq

/-- The body of `_process_retries` for one selected item (lines 313-339):
remove from the queue, increment `retry_count`, set
`next_retry = now + base · 2^retry_count`, attempt the send; on success
record it, on failure requeue while `retry_count < max_retries`, else
terminally fail. -/
def process_retry_item (item : RetryItem) (now : ℚ) (sendOk : Bool) :
    RetryStepResult :=
  if sendOk then
    { item := { retry_count := item.retry_count + 1,
                next_retry := now + retry_delay_base * 2 ^ (item.retry_count + 1) },
      requeued := false, success_recorded := true, terminal_failed := false }
  else if item.retry_count + 1 < max_retries then
    { item := { retry_count := item.retry_count + 1,
                next_retry := now + retry_delay_base * 2 ^ (item.retry_count + 1) },
      requeued := true, success_recorded := false, terminal_failed := false }
  else
    { item := { retry_count := item.retry_count + 1,
                next_retry := now + retry_delay_base * 2 ^ (item.retry_count + 1) },
      requeued := false, success_recorded := false, terminal_failed := true }

/-- The C5 scenario: a task enqueued at time 0 whose downstream send fails
transiently on the first three attempts; each retry is processed exactly at
its scheduled `next_retry` time. -/
def c5_item0 : RetryItem := add_to_retry_queue 0

def c5_step1 : RetryStepResult := process_retry_item c5_item0 c5_item0.next_retry false

def c5_step2 : RetryStepResult :=
  process_retry_item c5_step1.item c5_step1.item.next_retry false

/-- The third retry (4th attempt overall) succeeding. -/
def c5_step3_success : RetryStepResult :=
  process_retry_item c5_step2.item c5_step2.item.next_retry true

/-- The third retry failing instead: retries exhausted. -/
def c5_step3_failure : RetryStepResult :=
  process_retry_item c5_step2.item c5_step2.item.next_retry false

/-! ### Upstream client reconnect loop (`core/websocket_client.py`) -/

/-- One connection attempt as seen by `WebSocketClient.run`: either
`connect()` fails outright, or it succeeds and the session (which delivered
`frames` frames) ends in a transport error. -/
inductive ConnAttempt where
  | failConnect
  | sessionDrop (frames : Nat)
  deriving Repr, DecidableEq

/-- The reconnect-delay computation of `run` (lines 427-439). -/
def reconnect_delay (cf : Nat) : Nat :=
  if cf ≤ 3 then 2 else if cf ≤ 10 then 5 else min 30 cf

/-- One trip around the `while` loop of `run`: a successful `connect()`
resets `consecutive_failures` to 0 (`connect`, line 99) regardless of what
the following session delivers; a failed connect (line 107) or a session
ending in a transport error (lines 411, 416) increments it.  Returns the new
counter and the reconnect delay slept. -/
def run_step (cf : Nat) (a : ConnAttempt) : Nat × Nat :=
  match a with
  | .failConnect =>
    let cf2 := cf + 1
    (cf2, reconnect_delay cf2)
  | .sessionDrop _frames =>
    let cf2 := 0 + 1
    (cf2, reconnect_delay cf2)

/-- Iterate `run_step`, collecting the observed delays and the final
counter. -/
def run_trace (cf : Nat) : List ConnAttempt → List Nat × Nat
  | [] => ([], cf)
  | a :: rest =>
    let s := run_step cf a
    let r := run_trace s.1 rest
    (s.2 :: r.1, r.2)

/-- The scenario of the claim: a session that delivered one frame drops,
then four reconnect attempts fail. -/
def c7_scenario : List ConnAttempt :=
  [.sessionDrop 1, .failConnect, .failConnect, .failConnect, .failConnect]

/-! ### Event router (`core/websocket_client.py`) -/

def wallet_fields : List String :=
  ["user", "wallet", "address", "account", "from", "to", "owner", "trader",
   "userAddress"]

def wallet_sentinels : List String := ["unknown", "multiple_wallets", "0x0", "null"]

def isSpaceChar (c : Char) : Bool :=
  c = ' ' || c = '\t' || c = '\n' || c = '\r'

def dropLeadingSpace : List Char → List Char
  | [] => []
  | c :: cs => if isSpaceChar c then dropLeadingSpace cs else c :: cs

/-- Python `str.strip()`: remove leading and trailing whitespace. -/
def pyStrip (s : String) : String :=
  String.mk ((dropLeadingSpace ((dropLeadingSpace s.data).reverse)).reverse)

/-- The field loop of `check_dict_for_wallet` (lines 354-362): the first
candidate field holding a truthy value whose stripped `str` form is non-empty
and not a sentinel. -/
def checkFieldsForWallet (kvs : Dict) : List String → Option String
  | [] => none
  | f :: rest =>
    match dictGet kvs f with
    | some v =>
      if pyTruthy v then
        let w := pyStrip (pyStr v)
        if w ≠ "" ∧ w ∉ wallet_sentinels then some w
        else checkFieldsForWallet kvs rest
      else checkFieldsForWallet kvs rest
    | none => checkFieldsForWallet kvs rest

/-- `check_dict_for_wallet`: only dictionaries are inspected. -/
def check_dict_for_wallet : PyVal → Option String
  | .dict kvs => checkFieldsForWallet kvs wallet_fields
  | _ => none

/-- `a if a is not None else b()`: the first alternative when it produced a
wallet, else the second. -/
def optFirst (a : Option String) (b : Unit → Option String) : Option String :=
  match a with
  | some w => some w
  | none => b ()

/-- `WebSocketClient._extract_wallet_from_event` (lines 350-380): the raw
frame first, then the payload (first element of a non-empty list, or the
record and its truthy nested `data`). -/
def extract_wallet_from_event (event_data : PyVal) (raw_event : Dict) :
    Option String :=
  optFirst (checkFieldsForWallet raw_event wallet_fields) (fun _ =>
    match event_data with
    | .list (x :: _) => check_dict_for_wallet x
    | .dict kvs =>
      optFirst (checkFieldsForWallet kvs wallet_fields) (fun _ =>
        if pyTruthy (pyGet kvs "data") then check_dict_for_wallet (pyGet kvs "data")
        else none)
    | _ => none)

/-- A normalized event as built by `_process_single_event`. -/
structure NormEvent where
  etype : String
  wallet : String
  data : PyVal
  deriving Repr

/-- The per-payload emission of `_handle_wallet_event` /
`_process_single_event` (lines 304-336): one event per dictionary element of
a list payload, one event for a dictionary payload, none otherwise. -/
def emit_events (channel s : String) (event_data : PyVal) : List NormEvent :=
  match event_data with
  | .list xs =>
    xs.filterMap (fun x =>
      match x with
      | .dict _ => some { etype := channel, wallet := s, data := x }
      | _ => none)
  | .dict _ => [{ etype := channel, wallet := s, data := event_data }]
  | _ => []

/-- `WebSocketClient._handle_wallet_event` (lines 285-314): resolve the
account from the frame's `user`/`wallet` fields (Python `or`-chain, so falsy
values fall through) or the fallback extractor; drop the frame when the
account is falsy or not in the watched list (a non-string value never equals
a watched string); otherwise emit the normalized events. -/
def handle_wallet_event (raw_event : Dict) (channel : String)
    (watched : List String) : List NormEvent :=
  let event_data := pyGet raw_event "data"
  let wallet := pyOr (pyGet raw_event "user") (pyOr (pyGet raw_event "wallet")
    (match extract_wallet_from_event event_data raw_event with
     | some w => .str w
     | none => .pynull))
  match wallet with
  | .str s =>
    if s = "" then []
    else if s ∈ watched then emit_events channel s event_data
    else []
  | _ => []

/-- The normalized-event dictionary built by `_process_single_event` (lines
329-336); `ts` is the ISO-format ingestion timestamp string. -/
def norm_event_dict (e : NormEvent) (ts : String) : Dict :=
  [("type", .str e.etype), ("wallet", .str e.wallet), ("data", e.data),
   ("timestamp", .str ts), ("raw", e.data)]

/-- C6 counterexample frame: the top-level `user` field holds the sentinel
`"0x0"`, and `"0x0"` is in the watched set. -/
def c6_frame : Dict :=
  [("channel", .str "userFills"), ("user", .str "0x0"),
   ("data", .dict [("coin", .str "BTC")])]

/-- The C9 scenario frame's inner payload. -/
def c9_payload : Dict :=
  [("coin", .str "BTC"), ("side", .str "buy"),
   ("price", .num 50000), ("size", .num 25)]

/-- The C9 scenario frame. -/
def c9_frame : Dict :=
  [("channel", .str "userFills"), ("user", .str "A"), ("data", .dict c9_payload)]

/-- The normalized event the router produces for the C9 frame, as the
dictionary handed to the alert engine. -/
def c9_norm_event : Dict :=
  norm_event_dict
    { etype := "userFills", wallet := "A", data := .dict c9_payload }
    "2024-01-01T00:00:00+00:00"

/-! Auxiliary lemmas about `joinPipe`. -/

theorem joinPipe_cons (x : String) (l : List String) (h : l ≠ []) :
    joinPipe (x :: l) = x ++ "|" ++ joinPipe l := by
  cases l with
  | nil => exact absurd rfl h
  | cons y ys => rfl

theorem joinPipe_length (l : List String) (h : l ≠ []) :
    (joinPipe l).length + 1 = (l.map (fun s => s.length + 1)).sum := by
  induction l with
  | nil => exact absurd rfl h
  | cons x xs ih =>
    cases xs with
    | nil => simp [joinPipe]
    | cons y ys =>
      rw [joinPipe_cons x _ (by simp)]
      have hx := ih (by simp)
      simp only [List.map_cons, List.sum_cons, String.length_append] at *
      have h1 : ("|" : String).length = 1 := rfl
      omega

theorem joinPipe_subst {X Y : List String} {v v' : String}
    (h : joinPipe (X ++ v :: Y) = joinPipe (X ++ v' :: Y)) : v = v' := by
  induction X with
  | nil =>
    cases Y with
    | nil => simpa [joinPipe] using h
    | cons y ys =>
      simp only [List.nil_append] at h
      rw [joinPipe_cons v _ (by simp), joinPipe_cons v' _ (by simp)] at h
      have hd := congrArg String.data h
      simp only [String.data_append, List.append_assoc] at hd
      exact String.ext (List.append_cancel_right hd)
  | cons x xs ih =>
    simp only [List.cons_append] at h
    rw [joinPipe_cons x _ (by simp), joinPipe_cons x _ (by simp)] at h
    have hd := congrArg String.data h
    simp only [String.data_append, List.append_assoc] at hd
    have h2 := List.append_cancel_left (List.append_cancel_left hd)
    exact ih (String.ext h2)

theorem joinPipe_delete {X Y : List String} (v : String) (hne : X ++ Y ≠ []) :
    joinPipe (X ++ v :: Y) ≠ joinPipe (X ++ Y) := by
  intro h
  have h1 := joinPipe_length (X ++ v :: Y) (by simp)
  have h2 := joinPipe_length (X ++ Y) hne
  rw [h] at h1
  simp only [List.map_append, List.sum_append, List.map_cons, List.sum_cons] at h1 h2
  omega

theorem joinPipe_opt_change (X Y : List String) (a b : Option String)
    (h : a ≠ b) (hY : Y ≠ []) :
    joinPipe (X ++ a.toList ++ Y) ≠ joinPipe (X ++ b.toList ++ Y) := by
  have hXY : X ++ Y ≠ [] := by
    intro hc
    rcases List.append_eq_nil.mp hc with ⟨h1, h2⟩
    exact hY h2
  cases a with
  | none =>
    cases b with
    | none => exact absurd rfl h
    | some w =>
      simp only [Option.toList_none, Option.toList_some, List.append_nil,
        List.append_assoc, List.singleton_append]
      exact fun hc => joinPipe_delete w hXY hc.symm
  | some v =>
    cases b with
    | none =>
      simp only [Option.toList_none, Option.toList_some, List.append_nil,
        List.append_assoc, List.singleton_append]
      exact joinPipe_delete v hXY
    | some w =>
      simp only [Option.toList_some, List.append_assoc, List.singleton_append]
      intro hc
      exact h (congrArg some (joinPipe_subst hc))

theorem filterMap_four_opts (a b c d : Option String) :
    [a, b, c, d].filterMap id = a.toList ++ b.toList ++ c.toList ++ d.toList := by
  cases a <;> cases b <;> cases c <;> cases d <;> rfl

/-- Exactly one of the seven rendered fingerprint fields differs. -/
def singleRenderedFieldDiff (a b : FingerprintFields) : Prop :=
  (a.ftype ≠ b.ftype ∧ a.fwallet = b.fwallet ∧ a.fcoin = b.fcoin ∧ a.fside = b.fside
    ∧ a.fusd = b.fusd ∧ a.fsize = b.fsize ∧ a.fprice = b.fprice) ∨
  (a.ftype = b.ftype ∧ a.fwallet ≠ b.fwallet ∧ a.fcoin = b.fcoin ∧ a.fside = b.fside
    ∧ a.fusd = b.fusd ∧ a.fsize = b.fsize ∧ a.fprice = b.fprice) ∨
  (a.ftype = b.ftype ∧ a.fwallet = b.fwallet ∧ a.fcoin ≠ b.fcoin ∧ a.fside = b.fside
    ∧ a.fusd = b.fusd ∧ a.fsize = b.fsize ∧ a.fprice = b.fprice) ∨
  (a.ftype = b.ftype ∧ a.fwallet = b.fwallet ∧ a.fcoin = b.fcoin ∧ a.fside ≠ b.fside
    ∧ a.fusd = b.fusd ∧ a.fsize = b.fsize ∧ a.fprice = b.fprice) ∨
  (a.ftype = b.ftype ∧ a.fwallet = b.fwallet ∧ a.fcoin = b.fcoin ∧ a.fside = b.fside
    ∧ a.fusd ≠ b.fusd ∧ a.fsize = b.fsize ∧ a.fprice = b.fprice) ∨
  (a.ftype = b.ftype ∧ a.fwallet = b.fwallet ∧ a.fcoin = b.fcoin ∧ a.fside = b.fside
    ∧ a.fusd = b.fusd ∧ a.fsize ≠ b.fsize ∧ a.fprice = b.fprice) ∨
  (a.ftype = b.ftype ∧ a.fwallet = b.fwallet ∧ a.fcoin = b.fcoin ∧ a.fside = b.fside
    ∧ a.fusd = b.fusd ∧ a.fsize = b.fsize ∧ a.fprice ≠ b.fprice)

/-- An event with the usd_value key present holding the empty string. -/
def fpEventEmptyUsd : Dict :=
  [("type", .str "userFills"), ("wallet", .str "A"), ("usd_value", .str "")]

/-- The same event without the usd_value key. -/
def fpEventNoUsd : Dict :=
  [("type", .str "userFills"), ("wallet", .str "A")]

/-- C8 counterexample: two events that differ in exactly one of the seven
fingerprint fields — `usd_value` is present (as the empty string) in one and
absent in the other, all six other fields agreeing — yet their fingerprints
are equal, because an absent numeric field is rendered as the empty string.
This refutes the claim that any single-field change, including setting a
present field to absent, always yields a different fingerprint. -/
theorem fingerprint_single_field_collision :
    create_event_fingerprint fpEventEmptyUsd = create_event_fingerprint fpEventNoUsd
    ∧ (dictGet fpEventEmptyUsd "usd_value").isSome = true
    ∧ (dictGet fpEventNoUsd "usd_value").isSome = false
    ∧ dictGet fpEventEmptyUsd "type" = dictGet fpEventNoUsd "type"
    ∧ dictGet fpEventEmptyUsd "wallet" = dictGet fpEventNoUsd "wallet"
    ∧ dictGet fpEventEmptyUsd "coin" = dictGet fpEventNoUsd "coin"
    ∧ dictGet fpEventEmptyUsd "side" = dictGet fpEventNoUsd "side"
    ∧ dictGet fpEventEmptyUsd "size" = dictGet fpEventNoUsd "size"
    ∧ dictGet fpEventEmptyUsd "price" = dictGet fpEventNoUsd "price" :=
  ⟨rfl, rfl, rfl, rfl, rfl, rfl, rfl, rfl, rfl⟩

/-- C8 (amended): the fingerprint is a function of the seven rendered fields,
so it is stable under unchanged inputs; and any single-field change whose
RENDERING differs (for `kind`/`account`/`coin`/`side`: any change between
present values with different `str` forms, or between present and
absent/null; for `usd_value`/`size`/`price`: any change of the rendered
string — note absent renders as `""`, so present-empty vs. absent collide,
as do values with identical `str` forms) yields a different fingerprint. -/
theorem fingerprint_stable_and_rendered_single_change_distinct
    (e₁ e₂ : Dict) :
    (fingerprint_fields e₁ = fingerprint_fields e₂ →
      create_event_fingerprint e₁ = create_event_fingerprint e₂)
    ∧ (singleRenderedFieldDiff (fingerprint_fields e₁) (fingerprint_fields e₂) →
      create_event_fingerprint e₁ ≠ create_event_fingerprint e₂) := by
  constructor
  · intro h
    unfold create_event_fingerprint
    rw [h]
  · intro h
    unfold create_event_fingerprint fingerprint_of_fields
    set f := fingerprint_fields e₁ with hf
    set g := fingerprint_fields e₂ with hg
    rw [filterMap_four_opts, filterMap_four_opts]
    rcases h with h | h | h | h | h | h | h
    · obtain ⟨h1, h2, h3, h4, h5, h6, h7⟩ := h
      rw [h2, h3, h4, h5, h6, h7]
      simp only [List.append_assoc]
      exact joinPipe_opt_change []
        (g.fwallet.toList ++ (g.fcoin.toList ++ (g.fside.toList
          ++ [g.fusd, g.fsize, g.fprice])))
        f.ftype g.ftype h1 (by simp)
    · obtain ⟨h1, h2, h3, h4, h5, h6, h7⟩ := h
      rw [h1, h3, h4, h5, h6, h7]
      have hkey := joinPipe_opt_change g.ftype.toList
        (g.fcoin.toList ++ g.fside.toList ++ [g.fusd, g.fsize, g.fprice])
        f.fwallet g.fwallet h2 (by simp)
      simpa [List.append_assoc] using hkey
    · obtain ⟨h1, h2, h3, h4, h5, h6, h7⟩ := h
      rw [h1, h2, h4, h5, h6, h7]
      have hkey := joinPipe_opt_change (g.ftype.toList ++ g.fwallet.toList)
        (g.fside.toList ++ [g.fusd, g.fsize, g.fprice])
        f.fcoin g.fcoin h3 (by simp)
      simpa [List.append_assoc] using hkey
    · obtain ⟨h1, h2, h3, h4, h5, h6, h7⟩ := h
      rw [h1, h2, h3, h5, h6, h7]
      have hkey := joinPipe_opt_change
        (g.ftype.toList ++ g.fwallet.toList ++ g.fcoin.toList)
        [g.fusd, g.fsize, g.fprice]
        f.fside g.fside h4 (by simp)
      simpa [List.append_assoc] using hkey
    · obtain ⟨h1, h2, h3, h4, h5, h6, h7⟩ := h
      rw [h1, h2, h3, h4, h6, h7]
      exact fun hc => h5 (joinPipe_subst
        (X := g.ftype.toList ++ g.fwallet.toList ++ g.fcoin.toList ++ g.fside.toList)
        (Y := [g.fsize, g.fprice]) (by simpa [List.append_assoc] using hc))
    · obtain ⟨h1, h2, h3, h4, h5, h6, h7⟩ := h
      rw [h1, h2, h3, h4, h5, h7]
      exact fun hc => h6 (joinPipe_subst
        (X := g.ftype.toList ++ g.fwallet.toList ++ g.fcoin.toList ++ g.fside.toList
          ++ [g.fusd])
        (Y := [g.fprice]) (by simpa [List.append_assoc] using hc))
    · obtain ⟨h1, h2, h3, h4, h5, h6, h7⟩ := h
      rw [h1, h2, h3, h4, h5, h6]
      exact fun hc => h7 (joinPipe_subst
        (X := g.ftype.toList ++ g.fwallet.toList ++ g.fcoin.toList ++ g.fside.toList
          ++ [g.fusd, g.fsize])
        (Y := []) (by simpa [List.append_assoc] using hc))

/-- Witness for the amended C8 theorem: two concrete events that differ only
in the rendered `coin` field have different fingerprints, and stability at a
concrete event. -/
theorem fingerprint_stable_and_rendered_single_change_distinct_witness :
    create_event_fingerprint [("type", .str "userFills"), ("coin", .str "BTC")]
      ≠ create_event_fingerprint [("type", .str "userFills"), ("coin", .str "ETH")]
    ∧ create_event_fingerprint fpEventEmptyUsd = create_event_fingerprint fpEventEmptyUsd :=
  ⟨(fingerprint_stable_and_rendered_single_change_distinct
      [("type", .str "userFills"), ("coin", .str "BTC")]
      [("type", .str "userFills"), ("coin", .str "ETH")]).2
    (by right; right; left
        refine ⟨rfl, rfl, ?_, rfl, rfl, rfl, rfl⟩
        decide),
   (fingerprint_stable_and_rendered_single_change_distinct
      fpEventEmptyUsd fpEventEmptyUsd).1 rfl⟩

/-! Auxiliary lemmas about the dedup mapping. -/

theorem assocFind_set (m : List (String × ℚ)) (k : String) (v : ℚ) :
    assocFind (assocSet m k v) k = some v := by
  induction m with
  | nil => simp [assocSet, assocFind]
  | cons kv rest ih =>
    by_cases h : kv.1 = k
    · simp [assocSet, h, assocFind]
    · simp [assocSet, h, assocFind, ih]

theorem assocFind_filter {m : List (String × ℚ)} {k : String} {v : ℚ}
    {p : String × ℚ → Bool} (hf : assocFind m k = some v)
    (hp : p (k, v) = true) :
    assocFind (m.filter p) k = some v := by
  induction m with
  | nil => simp [assocFind] at hf
  | cons kv rest ih =>
    obtain ⟨k1, v1⟩ := kv
    by_cases h : k1 = k
    · have hv : v1 = v := by simpa [assocFind, h] using hf
      subst h
      subst hv
      simp [List.filter_cons, hp, assocFind]
    · have hf2 : assocFind rest k = some v := by simpa [assocFind, h] using hf
      by_cases hpk : p (k1, v1) = true
      · simp [List.filter_cons, hpk, assocFind, h, ih hf2]
      · simp [List.filter_cons, hpk, ih hf2]

theorem is_duplicate_event_fresh {recent : List (String × ℚ)} {e : Dict}
    {now : ℚ} (h : (is_duplicate_event recent e now).1 = false) :
    (is_duplicate_event recent e now).2
      = (assocSet recent (create_event_fingerprint e) now).filter
          (fun kv => decide (now - 2 * dedup_window_seconds < kv.2)) := by
  by_cases hd : dedupHit recent (create_event_fingerprint e) now
  · simp [is_duplicate_event, hd] at h
  · simp [is_duplicate_event, hd]

theorem is_duplicate_event_hit {recent : List (String × ℚ)} {e : Dict}
    {now last : ℚ}
    (hf : assocFind recent (create_event_fingerprint e) = some last)
    (hlt : now - last < dedup_window_seconds) :
    is_duplicate_event recent e now = (true, recent) := by
  have hd : dedupHit recent (create_event_fingerprint e) now = true := by
    simp [dedupHit, hf, hlt]
  simp [is_duplicate_event, hd]

theorem process_event_dup {rules : List AlertRule} {e : Dict}
    {history : List Dict} {recent : List (String × ℚ)} {now : ℚ}
    (h : is_duplicate_event recent e now = (true, recent)) :
    process_event rules e history recent now = ([], history, recent, false) := by
  unfold process_event
  rw [h]
  rfl

/-- C3: if an event reaches the rules engine at time t₁, then a second event
with the same fingerprint processed at time t₂ with t₂ − t₁ < 30s is detected
as a duplicate: `process_event` returns an empty notification list and never
invokes rule evaluation for it. -/
theorem duplicate_event_within_window_never_reaches_rules
    (rules : List AlertRule) (e₁ e₂ : Dict) (history : List Dict)
    (recent : List (String × ℚ)) (t₁ t₂ : ℚ)
    (hfp : create_event_fingerprint e₂ = create_event_fingerprint e₁)
    (hreach : (process_event rules e₁ history recent t₁).2.2.2 = true)
    (hlt : t₂ - t₁ < 30) :
    (process_event rules e₂ (process_event rules e₁ history recent t₁).2.1
        (process_event rules e₁ history recent t₁).2.2.1 t₂).1 = []
    ∧ (process_event rules e₂ (process_event rules e₁ history recent t₁).2.1
        (process_event rules e₁ history recent t₁).2.2.1 t₂).2.2.2 = false := by
  have hd1 : (is_duplicate_event recent e₁ t₁).1 = false := by
    by_contra hc
    rw [Bool.not_eq_false] at hc
    simp [process_event, hc] at hreach
  have hrec : (process_event rules e₁ history recent t₁).2.2.1
      = (assocSet recent (create_event_fingerprint e₁) t₁).filter
          (fun kv => decide (t₁ - 2 * dedup_window_seconds < kv.2)) := by
    simp [process_event, hd1, is_duplicate_event_fresh hd1]
  have hfind : assocFind ((assocSet recent (create_event_fingerprint e₁) t₁).filter
      (fun kv => decide (t₁ - 2 * dedup_window_seconds < kv.2)))
      (create_event_fingerprint e₂) = some t₁ := by
    rw [hfp]
    refine assocFind_filter (assocFind_set _ _ _) ?_
    have : t₁ - 2 * dedup_window_seconds < t₁ := by
      simp only [dedup_window_seconds]
      linarith
    simpa using this
  have hdup : is_duplicate_event
      ((process_event rules e₁ history recent t₁).2.2.1) e₂ t₂
      = (true, (process_event rules e₁ history recent t₁).2.2.1) := by
    rw [hrec]
    exact is_duplicate_event_hit hfind (by simpa [dedup_window_seconds] using hlt)
  rw [process_event_dup hdup]
  exact ⟨rfl, rfl⟩

/-- Witness for C3: a concrete event processed twice 10 seconds apart — the
first pass reaches the rules engine, the second is dropped with no
notifications and no rule evaluation. -/
theorem duplicate_event_within_window_never_reaches_rules_witness :
    (process_event DEFAULT_RULES [("type", .str "userFills"), ("wallet", .str "A")]
        (process_event DEFAULT_RULES [("type", .str "userFills"), ("wallet", .str "A")]
          [] [] 0).2.1
        (process_event DEFAULT_RULES [("type", .str "userFills"), ("wallet", .str "A")]
          [] [] 0).2.2.1 10).1 = []
    ∧ (process_event DEFAULT_RULES [("type", .str "userFills"), ("wallet", .str "A")]
        (process_event DEFAULT_RULES [("type", .str "userFills"), ("wallet", .str "A")]
          [] [] 0).2.1
        (process_event DEFAULT_RULES [("type", .str "userFills"), ("wallet", .str "A")]
          [] [] 0).2.2.1 10).2.2.2 = false :=
  duplicate_event_within_window_never_reaches_rules DEFAULT_RULES
    [("type", .str "userFills"), ("wallet", .str "A")]
    [("type", .str "userFills"), ("wallet", .str "A")]
    [] [] 0 10 rfl (by decide) (by norm_num)

/-! Auxiliary lemmas: adding the ingestion timestamp does not change any of
the extraction lookups (no extraction alias is named "timestamp"). -/

theorem dictGet_append_single (e : Dict) (k k' : String) (v : PyVal)
    (h : k ≠ k') :
    dictGet (e ++ [(k', v)]) k = dictGet e k := by
  induction e with
  | nil => simp [dictGet, Ne.symm h]
  | cons kv rest ih =>
    by_cases hh : kv.1 = k <;> simp [dictGet, hh, ih]

theorem dictGet_stamp (e : Dict) (now : ℚ) (k : String) (hk : k ≠ "timestamp") :
    dictGet (stampTimestamp e now) k = dictGet e k := by
  unfold stampTimestamp
  split
  · rfl
  · exact dictGet_append_single e k "timestamp" (.num now) hk

theorem pyGet_stamp (e : Dict) (now : ℚ) (k : String) (hk : k ≠ "timestamp") :
    pyGet (stampTimestamp e now) k = pyGet e k := by
  unfold pyGet
  rw [dictGet_stamp e now k hk]

theorem extractFromFields_stamp (e : Dict) (now : ℚ) (fields : List String)
    (hf : "timestamp" ∉ fields) :
    extractFromFields (stampTimestamp e now) fields = extractFromFields e fields := by
  induction fields with
  | nil => rfl
  | cons f rest ih =>
    have hne : f ≠ "timestamp" := fun h => hf (h ▸ List.mem_cons_self f rest)
    have hrest : "timestamp" ∉ rest := fun h => hf (List.mem_cons_of_mem f h)
    simp only [extractFromFields, dictGet_stamp e now f hne, ih hrest]

theorem rules_extract_usd_value_stamp (e : Dict) (now : ℚ) :
    rules_extract_usd_value (stampTimestamp e now) = rules_extract_usd_value e := by
  unfold rules_extract_usd_value
  rw [extractFromFields_stamp e now usd_fields (by decide),
    pyGet_stamp e now "price" (by decide), pyGet_stamp e now "limitPx" (by decide),
    pyGet_stamp e now "limit_px" (by decide), pyGet_stamp e now "size" (by decide),
    pyGet_stamp e now "sz" (by decide), pyGet_stamp e now "quantity" (by decide)]

/-- C4: an enabled position-size rule with a numeric threshold fires on an
event carrying an extractable USD value (direct alias or price × size) if and
only if that value is at least the threshold. -/
theorem position_size_rule_fires_iff
    (rules : List AlertRule) (r : AlertRule) (e : Dict) (history : List Dict)
    (now θ v : ℚ) (hr : r ∈ rules) (hen : r.enabled = true)
    (hc : r.condition = .position_size) (hθ : r.threshold = some θ)
    (hv : rules_extract_usd_value e = some v) :
    r ∈ (evaluate_event rules e history now).1 ↔ θ ≤ v := by
  have hstamp : rules_extract_usd_value (stampTimestamp e now) = some v := by
    rw [rules_extract_usd_value_stamp]
    exact hv
  have h2 : (add_to_history history e now).2 = stampTimestamp e now := rfl
  have heval : evaluate_rule r (add_to_history history e now).2
      (add_to_history history e now).1 now = some (decide (θ ≤ v)) := by
    rw [h2]
    simp [evaluate_rule, hc, evaluate_position_size, hθ, hstamp]
  unfold evaluate_event
  rw [List.mem_filter]
  constructor
  · rintro ⟨-, hb⟩
    simp only [heval, hen, Bool.true_and, Option.getD_some] at hb
    exact of_decide_eq_true hb
  · intro hle
    refine ⟨hr, ?_⟩
    simp [heval, hen, hle]

/-- Witness for C4: the default whale rule (threshold 1e6) fires on an event
with usd_value 2e6. -/
theorem position_size_rule_fires_iff_witness :
    ({ name := "whale_position", condition := .position_size, severity := "critical",
       threshold := some 1000000 } : AlertRule)
      ∈ (evaluate_event DEFAULT_RULES [("usd_value", .num 2000000)] [] 0).1 :=
  (position_size_rule_fires_iff DEFAULT_RULES _ [("usd_value", .num 2000000)] [] 0
      1000000 2000000 (List.mem_cons_self _ _) rfl rfl rfl rfl).mpr (by norm_num)

/-- C10 counterexample: with whale_threshold (500) below large_threshold
(100000) the ordering whale > large > medium > notable is violated, yet
classification does not fail: it silently assigns WHALE to a 600-USD event,
and configuration validation reports no issue. -/
theorem classification_ordering_violation_not_rejected :
    c10_bad_thresholds.whale_threshold < c10_bad_thresholds.large_threshold
    ∧ classify_position c10_bad_thresholds [("usd_value", .num 600)] = some .WHALE
    ∧ validate_configuration c10_config = [] :=
  ⟨by norm_num [c10_bad_thresholds], rfl, rfl⟩

/-- C10 (amended): classification never fails, ordered thresholds or not: any
event with a positive extractable USD value is silently assigned the first
matching class in the fixed order whale, large, medium, notable; and
`validate_configuration` never inspects the thresholds at all. -/
theorem classification_silent_under_any_thresholds
    (th : PositionThresholds) (e : Dict) (v : ℚ)
    (hv : classifier_extract_usd_value e = some v) (hpos : 0 < v) :
    (∃ c, classify_position th e = some c)
    ∧ (th.whale_threshold ≤ v → classify_position th e = some .WHALE)
    ∧ ∀ (c : HLConfig) (th₁ th₂ : PositionThresholds),
        validate_configuration { c with thresholds := th₁ }
          = validate_configuration { c with thresholds := th₂ } := by
  have hnp : ¬ v ≤ 0 := not_le.mpr hpos
  refine ⟨?_, ?_, fun c th₁ th₂ => rfl⟩
  · by_cases h1 : th.whale_threshold ≤ v
    · exact ⟨.WHALE, by simp [classify_position, hv, hnp, h1]⟩
    · by_cases h2 : th.large_threshold ≤ v
      · exact ⟨.LARGE, by simp [classify_position, hv, hnp, h1, h2]⟩
      · by_cases h3 : th.medium_threshold ≤ v
        · exact ⟨.MEDIUM, by simp [classify_position, hv, hnp, h1, h2, h3]⟩
        · by_cases h4 : th.notable_threshold ≤ v
          · exact ⟨.NOTABLE, by simp [classify_position, hv, hnp, h1, h2, h3, h4]⟩
          · exact ⟨.SMALL, by simp [classify_position, hv, hnp, h1, h2, h3, h4]⟩
  · intro hw
    simp [classify_position, hv, hnp, hw]

/-- Witness for the amended C10 theorem: instantiated at the mis-ordered
thresholds and the 600-USD event. -/
theorem classification_silent_under_any_thresholds_witness :
    (∃ c, classify_position c10_bad_thresholds [("usd_value", .num 600)] = some c)
    ∧ (c10_bad_thresholds.whale_threshold ≤ 600 →
        classify_position c10_bad_thresholds [("usd_value", .num 600)] = some .WHALE)
    ∧ ∀ (c : HLConfig) (th₁ th₂ : PositionThresholds),
        validate_configuration { c with thresholds := th₁ }
          = validate_configuration { c with thresholds := th₂ } :=
  classification_silent_under_any_thresholds c10_bad_thresholds
    [("usd_value", .num 600)] 600 rfl (by norm_num)

/-- C1 (code refutation): eleven sends submitted to the Discord
sliding-window limiter (10 per 60 s) within a single window are ALL admitted
and none is deferred — `can_send_request` never records an admitted send
into the window, so the request count stays 0 forever.  The claimed bound
(at most 10 sends per window, the 11th deferred until the oldest falls out)
is violated by the code. -/
theorem discord_sliding_window_admits_all_eleven :
    (dispatch_send_seq discord_rate_limit_config
        (initChannelStats discord_rate_limit_config 0) c1_times).1 = 11
    ∧ (dispatch_send_seq discord_rate_limit_config
        (initChannelStats discord_rate_limit_config 0) c1_times).2.1 = 0
    ∧ (dispatch_send_seq discord_rate_limit_config
        (initChannelStats discord_rate_limit_config 0) c1_times).2.2.requests = []
    ∧ discord_rate_limit_config.max_requests = 10 :=
  ⟨rfl, rfl, rfl, rfl⟩

/-- C2: a notification denied admission is only queued as pending together
with a rate-limited count — no send effect; and a flush-loop iteration emits
no send effect at all while removing exactly the flushable keys (non-empty
pending list, limiter admits).  A deferred notification is therefore dropped,
never delivered to its channel. -/
theorem deferred_notifications_are_dropped_not_sent
    (channel wallet : String) (content notification : PyVal) (sendOk : Bool)
    (pending : List (String × List PendingEvent)) (canSend : String → Bool) :
    send_to_channel_effects channel wallet content notification false sendOk
      = [.addPending channel wallet notification, .recordRateLimited]
    ∧ (send_to_channel_effects channel wallet content notification false sendOk).filter
        isSendEffect = []
    ∧ (flush_loop_iter pending canSend).2.filter isSendEffect = []
    ∧ (flush_loop_iter pending canSend).1
        = pending.filter (fun kv => kv.2.isEmpty || !canSend kv.1) := by
  refine ⟨rfl, rfl, ?_, ?_⟩
  · simp only [flush_loop_iter]
    generalize pending.filter _ = l
    induction l with
    | nil => rfl
    | cons kv rest ih => simpa [isSendEffect] using ih
  · simp only [flush_loop_iter]
    congr 1
    funext kv
    cases h2 : kv.2.isEmpty <;> cases hc : canSend kv.1 <;> simp [h2, hc]

/-- C5: a retry item's attempt count never exceeds 3 (selection requires
strictly fewer than `max_retries`, the step increments once, and only items
still strictly below the cap are requeued); the nominal backoff schedule
from the 5-second base is 5 s, 10 s, 20 s; three transient failures followed
by success on the 4th attempt record exactly one success at attempt count 3;
and a third failed retry is terminally failed and not requeued. -/
theorem retry_attempt_cap_and_backoff_schedule :
    (∀ (item : RetryItem) (now : ℚ) (sendOk : Bool),
      retry_ready item now = true →
      (process_retry_item item now sendOk).item.retry_count ≤ max_retries)
    ∧ (∀ (item : RetryItem) (now : ℚ) (sendOk : Bool),
      (process_retry_item item now sendOk).requeued = true →
      (process_retry_item item now sendOk).item.retry_count < max_retries)
    ∧ c5_item0.next_retry - 0 = 5
    ∧ c5_step1.item.next_retry - c5_item0.next_retry = 10
    ∧ c5_step2.item.next_retry - c5_step1.item.next_retry = 20
    ∧ c5_step1.requeued = true
    ∧ c5_step2.requeued = true
    ∧ c5_step3_success.success_recorded = true
    ∧ c5_step3_success.requeued = false
    ∧ c5_step3_success.item.retry_count = 3
    ∧ c5_step3_failure.terminal_failed = true
    ∧ c5_step3_failure.requeued = false
    ∧ c5_step3_failure.item.retry_count = 3 := by
  have harith1 : c5_item0.next_retry = 5 := by
    norm_num [c5_item0, add_to_retry_queue, retry_delay_base]
  have hstep1 : c5_step1 = process_retry_item c5_item0 5 false := by
    unfold c5_step1
    rw [harith1]
  have hitem1 : c5_step1.item = { retry_count := 1, next_retry := 15 } := by
    rw [hstep1]
    norm_num [process_retry_item, c5_item0, add_to_retry_queue,
      retry_delay_base, max_retries]
  have hstep2 : c5_step2
      = process_retry_item { retry_count := 1, next_retry := 15 } 15 false := by
    unfold c5_step2
    rw [hitem1]
  have hitem2 : c5_step2.item = { retry_count := 2, next_retry := 35 } := by
    rw [hstep2]
    norm_num [process_retry_item, retry_delay_base, max_retries]
  refine ⟨?_, ?_, ?_, ?_, ?_, ?_, ?_, ?_, ?_, ?_, ?_, ?_, ?_⟩
  · intro item now sendOk h
    have h3 : item.retry_count < max_retries :=
      of_decide_eq_true ((Bool.and_eq_true _ _).mp h).1
    simp only [max_retries] at h3 ⊢
    unfold process_retry_item
    by_cases hs : sendOk = true
    · rw [if_pos hs]
      show item.retry_count + 1 ≤ 3
      omega
    · rw [if_neg hs]
      by_cases hrc : item.retry_count + 1 < max_retries
      · rw [if_pos hrc]
        show item.retry_count + 1 ≤ 3
        omega
      · rw [if_neg hrc]
        show item.retry_count + 1 ≤ 3
        omega
  · intro item now sendOk h
    unfold process_retry_item at h ⊢
    by_cases hs : sendOk = true
    · rw [if_pos hs] at h
      simp at h
    · rw [if_neg hs] at h ⊢
      by_cases hrc : item.retry_count + 1 < max_retries
      · rw [if_pos hrc]
        exact hrc
      · rw [if_neg hrc] at h
        simp at h
  · rw [harith1]
    norm_num
  · rw [hitem1, harith1]
    norm_num
  · rw [hitem2, hitem1]
    norm_num
  · rw [hstep1]
    norm_num [process_retry_item, c5_item0, add_to_retry_queue,
      retry_delay_base, max_retries]
  · rw [hstep2]
    norm_num [process_retry_item, retry_delay_base, max_retries]
  · unfold c5_step3_success
    rw [hitem2]
    norm_num [process_retry_item, retry_delay_base, max_retries]
  · unfold c5_step3_success
    rw [hitem2]
    norm_num [process_retry_item, retry_delay_base, max_retries]
  · unfold c5_step3_success
    rw [hitem2]
    norm_num [process_retry_item, retry_delay_base, max_retries]
  · unfold c5_step3_failure
    rw [hitem2]
    norm_num [process_retry_item, retry_delay_base, max_retries]
  · unfold c5_step3_failure
    rw [hitem2]
    norm_num [process_retry_item, retry_delay_base, max_retries]
  · unfold c5_step3_failure
    rw [hitem2]
    norm_num [process_retry_item, retry_delay_base, max_retries]

/-- Witness for C5: the cap applied to the fresh item processed at its
scheduled time. -/
theorem retry_attempt_cap_and_backoff_schedule_witness :
    (process_retry_item c5_item0 5 false).item.retry_count ≤ max_retries :=
  retry_attempt_cap_and_backoff_schedule.1 c5_item0 5 false
    (by norm_num [retry_ready, c5_item0, add_to_retry_queue, retry_delay_base,
        max_retries])

/-- C7 counterexample: running the embedded reconnect loop on the claimed
scenario (a session that delivered one frame drops, then four reconnect
attempts fail) yields consecutive_failures = 5 with observed delays
2,2,2,5,5 — not the claimed 4 with delays 2,2,2,2,5.  Moreover the counter
reset does not depend on delivered frames: it happens on every successful
connect, so even after 7 accumulated failures a session that delivered NO
frame ends with the counter at 1 instead of continuing to accumulate. -/
theorem reconnect_scenario_refutes_reset_on_close :
    run_trace 0 c7_scenario = ([2, 2, 2, 5, 5], 5)
    ∧ ¬(run_trace 0 c7_scenario = ([2, 2, 2, 2, 5], 4))
    ∧ (run_step 7 (.sessionDrop 0)).1 = 1 :=
  ⟨by decide, by decide, by decide⟩

/-- C7 (amended): `consecutive_failures` is reset to 0 by every successful
connect — independent of whether the session then delivers any frame — and
incremented by each failed connect or dropped session; the reconnect delay
is 2 s while the counter is ≤ 3, 5 s while ≤ 10, else min(30, counter); on
the scenario (one-frame session drops, then 4 failed reconnects) the counter
ends at 5 and the observed delays are 2,2,2,5,5. -/
theorem reconnect_reset_on_connect_and_delay_schedule :
    (∀ cf, cf ≤ 3 → reconnect_delay cf = 2)
    ∧ (∀ cf, 3 < cf → cf ≤ 10 → reconnect_delay cf = 5)
    ∧ (∀ cf, 10 < cf → reconnect_delay cf = min 30 cf)
    ∧ (∀ cf frames, (run_step cf (.sessionDrop frames)).1 = 1)
    ∧ (∀ cf, (run_step cf .failConnect).1 = cf + 1)
    ∧ run_trace 0 c7_scenario = ([2, 2, 2, 5, 5], 5) := by
  refine ⟨?_, ?_, ?_, fun cf frames => rfl, fun cf => rfl, by decide⟩
  · intro cf h
    simp [reconnect_delay, h]
  · intro cf h1 h2
    unfold reconnect_delay
    rw [if_neg (by omega), if_pos h2]
  · intro cf h
    unfold reconnect_delay
    rw [if_neg (by omega), if_neg (by omega)]

/-- Witness for the amended C7 theorem: the delay rule at counters 2, 5 and
40, and the frame-independent reset after 9 accumulated failures. -/
theorem reconnect_reset_on_connect_and_delay_schedule_witness :
    reconnect_delay 2 = 2
    ∧ reconnect_delay 5 = 5
    ∧ reconnect_delay 40 = min 30 40
    ∧ (run_step 9 (.sessionDrop 0)).1 = 1 :=
  ⟨reconnect_reset_on_connect_and_delay_schedule.1 2 (by norm_num),
   reconnect_reset_on_connect_and_delay_schedule.2.1 5 (by norm_num) (by norm_num),
   reconnect_reset_on_connect_and_delay_schedule.2.2.1 40 (by norm_num),
   reconnect_reset_on_connect_and_delay_schedule.2.2.2.1 9 0⟩

/-! Auxiliary lemmas for the router claims. -/

theorem emit_events_wallet {channel s : String} {d : PyVal} {e : NormEvent}
    (h : e ∈ emit_events channel s d) : e.wallet = s := by
  cases d with
  | list xs =>
    simp only [emit_events] at h
    obtain ⟨x, -, hx⟩ := List.mem_filterMap.mp h
    cases x with
    | dict kvs =>
      have hx2 : ({ etype := channel, wallet := s, data := PyVal.dict kvs } : NormEvent) = e :=
        Option.some.inj hx
      rw [← hx2]
    | pynull => simp at hx
    | num q => simp at hx
    | str t => simp at hx
    | list ys => simp at hx
  | dict kvs =>
    simp only [emit_events, List.mem_singleton] at h
    rw [h]
  | pynull => simp [emit_events] at h
  | num q => simp [emit_events] at h
  | str t => simp [emit_events] at h

theorem checkFields_cons_none {kvs : Dict} {f : String} {rest : List String}
    (hg : dictGet kvs f = none) :
    checkFieldsForWallet kvs (f :: rest) = checkFieldsForWallet kvs rest := by
  simp only [checkFieldsForWallet]
  rw [hg]

theorem checkFields_cons_some {kvs : Dict} {f : String} {rest : List String}
    {v : PyVal} (hg : dictGet kvs f = some v) :
    checkFieldsForWallet kvs (f :: rest)
      = if pyTruthy v then
          (if pyStrip (pyStr v) ≠ "" ∧ pyStrip (pyStr v) ∉ wallet_sentinels
           then some (pyStrip (pyStr v)) else checkFieldsForWallet kvs rest)
        else checkFieldsForWallet kvs rest := by
  simp only [checkFieldsForWallet]
  rw [hg]

theorem checkFieldsForWallet_sentinel_free {kvs : Dict} {fields : List String}
    {w : String} (h : checkFieldsForWallet kvs fields = some w) :
    w ∉ wallet_sentinels ∧ w ≠ "" := by
  induction fields with
  | nil => simp [checkFieldsForWallet] at h
  | cons f rest ih =>
    cases hg : dictGet kvs f with
    | none =>
      rw [checkFields_cons_none hg] at h
      exact ih h
    | some v =>
      rw [checkFields_cons_some hg] at h
      by_cases ht : pyTruthy v
      · rw [if_pos ht] at h
        by_cases hguard : pyStrip (pyStr v) ≠ "" ∧ pyStrip (pyStr v) ∉ wallet_sentinels
        · rw [if_pos hguard] at h
          obtain rfl : pyStrip (pyStr v) = w := Option.some.inj h
          exact ⟨hguard.2, hguard.1⟩
        · rw [if_neg hguard] at h
          exact ih h
      · rw [if_neg ht] at h
        exact ih h

theorem check_dict_for_wallet_sentinel_free {v : PyVal} {w : String}
    (h : check_dict_for_wallet v = some w) :
    w ∉ wallet_sentinels ∧ w ≠ "" := by
  cases v with
  | dict kvs => exact checkFieldsForWallet_sentinel_free h
  | pynull => simp [check_dict_for_wallet] at h
  | num q => simp [check_dict_for_wallet] at h
  | str s => simp [check_dict_for_wallet] at h
  | list xs => simp [check_dict_for_wallet] at h

theorem optFirst_eq_some {a : Option String} {b : Unit → Option String}
    {w : String} (h : optFirst a b = some w) :
    a = some w ∨ (a = none ∧ b () = some w) := by
  cases a with
  | some v =>
    left
    simpa [optFirst] using h
  | none =>
    right
    exact ⟨rfl, by simpa [optFirst] using h⟩

theorem extract_wallet_sentinel_free {d : PyVal} {raw : Dict} {w : String}
    (h : extract_wallet_from_event d raw = some w) :
    w ∉ wallet_sentinels ∧ w ≠ "" := by
  unfold extract_wallet_from_event at h
  rcases optFirst_eq_some h with h1 | ⟨-, h2⟩
  · exact checkFieldsForWallet_sentinel_free h1
  · revert h2
    cases d with
    | list xs =>
      cases xs with
      | nil =>
        intro h2
        simp at h2
      | cons x rest =>
        intro h2
        exact check_dict_for_wallet_sentinel_free h2
    | dict kvs =>
      intro h2
      rcases optFirst_eq_some h2 with h3 | ⟨-, h4⟩
      · exact checkFieldsForWallet_sentinel_free h3
      · have h5 : (if pyTruthy (pyGet kvs "data")
            then check_dict_for_wallet (pyGet kvs "data") else none) = some w := h4
        by_cases hn : pyTruthy (pyGet kvs "data")
        · rw [if_pos hn] at h5
          exact check_dict_for_wallet_sentinel_free h5
        · rw [if_neg hn] at h5
          exact absurd h5 (by simp)
    | pynull =>
      intro h2
      simp at h2
    | num q =>
      intro h2
      simp at h2
    | str s =>
      intro h2
      simp at h2

/-- C6 counterexample: a frame whose top-level `user` field is the sentinel
`"0x0"`, with `"0x0"` in the watched set, IS emitted as a normalized event —
the sentinel filter is applied only inside the fallback extractor, not to the
top-level account fields.  This refutes "emitted only if a non-empty,
non-sentinel account was extracted". -/
theorem sentinel_account_emitted_when_watched :
    handle_wallet_event c6_frame "userFills" ["0x0"]
      = [{ etype := "userFills", wallet := "0x0",
           data := .dict [("coin", .str "BTC")] }]
    ∧ "0x0" ∈ wallet_sentinels :=
  ⟨rfl, by decide⟩

/-- C6 (amended): a normalized event is emitted only if a non-empty account
was resolved and belongs to the watched set (frames with a missing, falsy or
unwatched account are dropped and emit nothing); the non-sentinel guarantee
holds for accounts recovered by the fallback extractor — it never returns an
empty or sentinel string — but not for accounts taken directly from the
frame's top-level `user`/`wallet` fields, which are checked only for
truthiness and watched-set membership. -/
theorem emitted_account_watched_and_extractor_sentinel_free :
    (∀ (raw : Dict) (channel : String) (watched : List String) (e : NormEvent),
      e ∈ handle_wallet_event raw channel watched →
      e.wallet ∈ watched ∧ e.wallet ≠ "")
    ∧ (∀ (d : PyVal) (raw : Dict) (w : String),
      extract_wallet_from_event d raw = some w →
      w ∉ wallet_sentinels ∧ w ≠ "") := by
  constructor
  · intro raw channel watched e he
    simp only [handle_wallet_event] at he
    revert he
    cases hwv : pyOr (pyGet raw "user") (pyOr (pyGet raw "wallet")
        (match extract_wallet_from_event (pyGet raw "data") raw with
         | some w => PyVal.str w
         | none => PyVal.pynull)) with
    | str s =>
      intro he
      have he2 : e ∈ (if s = "" then []
          else if s ∈ watched then emit_events channel s (pyGet raw "data")
          else []) := he
      by_cases hs : s = ""
      · rw [if_pos hs] at he2
        exact absurd he2 (List.not_mem_nil e)
      · rw [if_neg hs] at he2
        by_cases hm : s ∈ watched
        · rw [if_pos hm] at he2
          rw [emit_events_wallet he2]
          exact ⟨hm, hs⟩
        · rw [if_neg hm] at he2
          exact absurd he2 (List.not_mem_nil e)
    | pynull =>
      intro he
      exact absurd he (List.not_mem_nil e)
    | num q =>
      intro he
      exact absurd he (List.not_mem_nil e)
    | list xs =>
      intro he
      exact absurd he (List.not_mem_nil e)
    | dict kvs =>
      intro he
      exact absurd he (List.not_mem_nil e)
  · intro d raw w h
    exact extract_wallet_sentinel_free h

/-- Witness for the amended C6 theorem: the event emitted for watched account
"A" carries that non-empty account, and the fallback extractor skips the
sentinel `user` field and returns the non-sentinel `wallet` field. -/
theorem emitted_account_watched_and_extractor_sentinel_free_witness :
    (({ etype := "userFills", wallet := "A",
        data := .dict [("coin", .str "BTC")] } : NormEvent).wallet ∈ ["A"]
      ∧ ({ etype := "userFills", wallet := "A",
            data := .dict [("coin", .str "BTC")] } : NormEvent).wallet ≠ "")
    ∧ ("0xreal" ∉ wallet_sentinels ∧ "0xreal" ≠ "") :=
  ⟨emitted_account_watched_and_extractor_sentinel_free.1
      [("channel", .str "userFills"), ("user", .str "A"),
       ("data", .dict [("coin", .str "BTC")])]
      "userFills" ["A"]
      { etype := "userFills", wallet := "A", data := .dict [("coin", .str "BTC")] }
      (by
        show ({ etype := "userFills", wallet := "A",
                data := .dict [("coin", .str "BTC")] } : NormEvent)
          ∈ [({ etype := "userFills", wallet := "A",
                data := .dict [("coin", .str "BTC")] } : NormEvent)]
        exact List.mem_singleton.mpr rfl),
   emitted_account_watched_and_extractor_sentinel_free.2
      (.dict [("user", .str "0x0"), ("wallet", .str "0xreal")]) [] "0xreal"
      rfl⟩

/-- C9 (code refutation): the scenario frame produces exactly one normalized
event, but the classifier and every rule inspect only the normalized
dictionary's top-level keys while price/size sit nested under `data`: USD
extraction finds nothing, classification yields none, and no rule fires — so
no alert is generated for any channel.  The nested payload itself carries
price × size = 1,250,000 USD (which the default thresholds would class as
WHALE — above LARGE — so the claim's expected outcome is unreachable either
way). -/
theorem fill_frame_classified_none_and_no_rule_fires :
    handle_wallet_event c9_frame "userFills" ["A"]
      = [{ etype := "userFills", wallet := "A", data := .dict c9_payload }]
    ∧ classify_position {} c9_norm_event = none
    ∧ (evaluate_event DEFAULT_RULES c9_norm_event [] 0).1 = []
    ∧ classifier_extract_usd_value c9_norm_event = none
    ∧ classifier_extract_usd_value c9_payload = some (50000 * 25)
    ∧ (50000 : ℚ) * 25 = 1250000
    ∧ classify_position {} c9_payload = some .WHALE := by
  refine ⟨rfl, rfl, rfl, rfl, rfl, by norm_num, ?_⟩
  show (if (50000 : ℚ) * 25 ≤ 0 then none
      else if (1000000 : ℚ) ≤ 50000 * 25 then some PositionSize.WHALE
      else if (100000 : ℚ) ≤ 50000 * 25 then some PositionSize.LARGE
      else if (10000 : ℚ) ≤ 50000 * 25 then some PositionSize.MEDIUM
      else if (1000 : ℚ) ≤ 50000 * 25 then some PositionSize.NOTABLE
      else some PositionSize.SMALL)
    = some PositionSize.WHALE
  rw [if_neg (by norm_num), if_pos (by norm_num)]
